import Mathlib

/-!
Shallow embedding of `src/native_stack_trace.rs` (py-spy's merged
native/Python stack capture), Linux configuration (`target_os="linux"`).

External collaborators (remoteprocess unwinder, cpp_demangle, the cython
source maps module, `resolve_filename`, `get_stack_traces`) are modelled as
components of an environment record: the embedding is parametric in their
behaviour, exactly as the Rust code is parametric in the crates it calls.
-/

deriving instance DecidableEq for Except

namespace NativeStackTrace

/-- Embeds `stack_trace::Frame`. Modelled from the spec: `stack_trace.rs` is not part
of the sources under review; the spec's StackFrame is {filename, optional
short filename, line number, function name, optional owning module}, matching
the field set `native_stack_trace.rs` constructs. -/
structure Frame where
  filename : String
  short_filename : Option String
  line : Int
  name : String
  module : Option String
deriving DecidableEq, Repr

/-- Embeds `stack_trace::StackTrace`, restricted to the fields
`native_stack_trace.rs` reads or writes. Modelled from the spec:
InterpreterTrace is {interpreter-level thread id, ordered managed frames,
optional assigned OS thread id}. -/
structure StackTrace where
  thread_id : Nat
  os_thread_id : Option Nat
  frames : List Frame
deriving DecidableEq, Repr

/-- The metadata `remoteprocess::Unwinder::symbolicate` hands to its callback
(`frame` in the Rust closure): module path, optional function name, optional
filename, optional line, and the resolved address. -/
structure ResolvedFrame where
  module : String
  function : Option String
  filename : Option String
  line : Option Nat
  addr : Nat
deriving DecidableEq, Repr

/-- Errors from a remoteprocess unwind cursor; `noBinaryForAddress` embeds
`remoteprocess::Error::NoBinaryForAddress(addr)`, everything else is
collapsed into `other`. -/
inductive UnwindError where
  | noBinaryForAddress (addr : Nat)
  | other (code : Nat)
deriving DecidableEq, Repr

/-- One `cursor.next()` step of the primary (gimli-based) unwinder: the
instruction pointer result, and the value `cursor.bx()` returns after this
step. -/
structure CursorStep where
  ip : Except UnwindError Nat
  bx : Nat
deriving DecidableEq, Repr

/-- One `cursor.next()` step of the libunwind fallback cursor: its `bx()`
accessor is fallible and is read before the ip error check. -/
structure LibCursorStep where
  ip : Except UnwindError Nat
  bx : Except Unit Nat
deriving DecidableEq, Repr

/-- The fields of `NativeStack` consulted by frame classification. -/
structure MergeConfig where
  python_filename : String
  libpython_filename : Option String
deriving DecidableEq, Repr

/-- External collaborators used during classification/symbolication, as an
environment. `symbolicate` returns `none` when symbolication errors (the
`unwrap_or_else` arm) and otherwise the list of resolved frames the callback
is invoked with. `demangleCpp` models the
`cpp_demangle::BorrowedSymbol::with_tail` + `demangle` (no_params) chain,
`none` on any failure. `resolveFilename` models `utils::resolve_filename`.
`cythonIgnore`, `cythonDemangle` and `translate` model `cython::ignore_frame`,
`cython::demangle` and `cython::SourceMaps::translate`; modelled from the
spec: the cython module is not among the sources under review, the spec
describes them as an ignore-predicate and total name/frame rewrites that keep
the prior value when they cannot improve it. -/
structure SymEnv where
  symbolicate : Nat → Option (List ResolvedFrame)
  demangleCpp : String → Option String
  resolveFilename : String → String → Option String
  cythonIgnore : String → Bool
  cythonDemangle : String → String
  translate : Frame → Frame

/-- Models Rust `str::starts_with`, character-wise (structurally reducible,
unlike the byte-position-based core `String.startsWith`). -/
def strStartsWith (s p : String) : Bool :=
  p.data.isPrefixOf s.data

/-- Models Rust `str::contains` for a string pattern: substring containment,
character-wise. -/
def strContains (hay needle : String) : Bool :=
  decide (needle.data <:+: hay.data)

/-- The three interpreter frame-evaluation entry points recognised in the
marker branch. -/
def markerFunctions : List String :=
  ["_PyEval_EvalFrameDefault", "PyEval_EvalFrameEx", "__PyEval_EvalFrameDefault"]

/-- The module condition of the marker branch:
`frame.module == self.python_filename || Some(&frame.module) == self.libpython_filename.as_ref() || self.python_filename.starts_with(&frame.module)`. -/
def isMarkerModule (cfg : MergeConfig) (module : String) : Bool :=
  module == cfg.python_filename ||
  (match cfg.libpython_filename with
   | some lib => module == lib
   | none => false) ||
  strStartsWith cfg.python_filename module

/-- The marker module condition as the SPEC words it, for comparison with
`isMarkerModule` (which is translated from the code): "resolved module
matches the interpreter's own binary or support-library path (by exact
equality, prefix match, or containment)" — i.e. for either configured path,
the module equals it, is a prefix of it, or is contained in it. -/
def specMarkerModule (cfg : MergeConfig) (module : String) : Bool :=
  (cfg.python_filename :: cfg.libpython_filename.toList).any (fun p =>
    module == p || strStartsWith p module || strContains p module)

/-- Embeds `ignore_frame` for `target_os="linux"`: top-level libc / pthreads shims. -/
def ignore_frame (function : String) (module : String) : Bool :=
  if function == "__libc_start_main" && strContains module "/libc" then
    true
  else if function == "__clone" && strContains module "/libc" then
    true
  else if function == "start_thread" && strContains module "/libpthread" then
    true
  else
    false

/-- Embeds `format!("0x{:016x}", addr)` for a `u64` argument: "0x" followed by
exactly 16 lowercase hexadecimal digits (zero padded). -/
def hex16 (addr : Nat) : String :=
  "0x" ++ String.mk (((List.range 16).reverse).map
    (fun i => Nat.digitChar (addr / 16 ^ i % 16)))

/-- The stub frame pushed when symbolication of a raw address fails. -/
def stubFrame (addr : Nat) : Frame :=
  { filename := "?", name := hex16 addr, line := 0,
    short_filename := none, module := none }

/-- The body of the `symbolicate` callback for one resolved frame: given the
managed frames of the current trace and the current `python_frame_index`,
returns the frames appended to `merged` and the new index. -/
def processResolved (env : SymEnv) (cfg : MergeConfig) (pyFrames : List Frame)
    (idx : Nat) (rf : ResolvedFrame) : List Frame × Nat :=
  if isMarkerModule cfg rf.module then
    match rf.function with
    | some fn =>
      if fn ∈ markerFunctions then
        (if h : idx < pyFrames.length then [pyFrames.get ⟨idx, h⟩] else [], idx + 1)
      else
        ([], idx)
    | none => ([], idx)
  else
    match rf.function with
    | some fn =>
      if ignore_frame fn rf.module then
        ([], idx)
      else
        let line : Int := Int.ofNat (rf.line.getD 0)
        let filename :=
          match rf.filename with
          | some f => (env.resolveFilename f rf.module).getD f
          | none => rf.module
        let demangled :=
          if strStartsWith fn "_" then env.demangleCpp fn else none
        let name := demangled.getD fn
        if env.cythonIgnore name then
          ([], idx)
        else
          ([{ filename := filename, line := line, name := env.cythonDemangle name,
              short_filename := none, module := some rf.module }], idx)
    | none =>
      ([{ filename := rf.module, name := hex16 rf.addr, line := 0,
          short_filename := none, module := some rf.module }], idx)

/-- Processing of one raw address of the `for addr in stack` loop: either the
callback runs over every resolved frame, or (symbolication error) a stub
frame is pushed. State is (merged frames so far, python_frame_index). -/
def processAddr (env : SymEnv) (cfg : MergeConfig) (pyFrames : List Frame)
    (st : List Frame × Nat) (addr : Nat) : List Frame × Nat :=
  match env.symbolicate addr with
  | none => (st.1 ++ [stubFrame addr], st.2)
  | some rfs =>
    rfs.foldl
      (fun s rf =>
        let r := processResolved env cfg pyFrames s.2 rf
        (s.1 ++ r.1, r.2))
      st

/-- The classification loop over a thread's whole raw stack, starting from an
empty merged list and index 0. -/
def mergeCore (env : SymEnv) (cfg : MergeConfig) (pyFrames : List Frame)
    (stack : List Nat) : List Frame × Nat :=
  stack.foldl (processAddr env cfg pyFrames) ([], 0)

/-- The loop body of `get_thread`, iterating the primary unwinder's cursor:
on `Err(NoBinaryForAddress(_))` the reload flag is set before `stack.push(ip?)`
propagates the error; after a successful step, `cursor.bx()` updates the
correlation candidate when nonzero and a known interpreter thread id.
Returns (new reload flag, Err or (stack, bx)). -/
def runCursor (threadids : List Nat) (flag : Bool) (stack : List Nat) (bx : Nat) :
    List CursorStep → Bool × Except UnwindError (List Nat × Nat)
  | [] => (flag, Except.ok (stack, bx))
  | step :: rest =>
    let flag1 :=
      match step.ip with
      | Except.error (UnwindError.noBinaryForAddress _) => true
      | _ => flag
    match step.ip with
    | Except.error e => (flag1, Except.error e)
    | Except.ok ip =>
      let bx1 := if step.bx ≠ 0 && threadids.contains step.bx then step.bx else bx
      runCursor threadids flag1 (stack ++ [ip]) bx1 rest

/-- Embeds `NativeStack::get_thread`: obtain a cursor (whose construction may fail)
and walk it with `runCursor`. The reload flag is state of `NativeStack`;
it is threaded in and out. -/
def get_thread (threadids : List Nat)
    (cursorInit : Except UnwindError (List CursorStep)) (flag : Bool) :
    Bool × Except UnwindError (List Nat × Nat) :=
  match cursorInit with
  | Except.error e => (flag, Except.error e)
  | Except.ok steps => runCursor threadids flag [] 0 steps

/-- The loop body of `get_libunwind_thread`: `bx()` is fallible and read
before `stack.push(ip?)`, so the candidate can update on the failing step. -/
def runLibCursor (threadids : List Nat) (stack : List Nat) (bx : Nat) :
    List LibCursorStep → Except UnwindError (List Nat × Nat)
  | [] => Except.ok (stack, bx)
  | step :: rest =>
    let bx1 :=
      match step.bx with
      | Except.ok nb => if nb ≠ 0 && threadids.contains nb then nb else bx
      | Except.error _ => bx
    match step.ip with
    | Except.error e => Except.error e
    | Except.ok ip => runLibCursor threadids (stack ++ [ip]) bx1 rest

/-- Embeds `NativeStack::get_libunwind_thread` (linux fallback backend). It does not
touch the reload flag. -/
def get_libunwind_thread (threadids : List Nat)
    (cursorInit : Except UnwindError (List LibCursorStep)) :
    Except UnwindError (List Nat × Nat) :=
  match cursorInit with
  | Except.error e => Except.error e
  | Except.ok steps => runLibCursor threadids [] 0 steps

/-- Environment of one whole `get_native_stack_traces` call: the collaborator
behaviour observed during it. `pyTraces` is the result of
`get_stack_traces(interpreter, process)`; `threads` is
`self.process.threads()` in iteration order; `primarySteps t` is the primary
unwinder's cursor for thread `t`; `secondary` is `self.libunwinder` — `none`
when libunwind-ptrace failed to load; `reloadOk` is whether
`self.unwinder.reload()` would succeed. -/
structure CaptureEnv where
  sym : SymEnv
  cfg : MergeConfig
  reloadOk : Bool
  pyTraces : List StackTrace
  threads : List Nat
  primarySteps : Nat → Except UnwindError (List CursorStep)
  secondary : Option (Nat → Except UnwindError (List LibCursorStep))

/-- The per-thread unwind of the snapshot loop, linux configuration: try
`get_thread`; on any error retry the whole thread with libunwind when the
fallback is configured, otherwise return the original error. -/
def getThreadResolved (env : CaptureEnv) (threadids : List Nat) (t : Nat)
    (flag : Bool) : Bool × Except UnwindError (List Nat × Nat) :=
  let r := get_thread threadids (env.primarySteps t) flag
  match r.2 with
  | Except.ok x => (r.1, Except.ok x)
  | Except.error e =>
    match env.secondary with
    | some sec => (r.1, get_libunwind_thread threadids (sec t))
    | none => (r.1, Except.error e)

/-- Insert into an association list only when the key is absent:
`threadid_map.entry(pthread_id).or_insert(thread)`. -/
def insertIfAbsent (m : List (Nat × Nat)) (k v : Nat) : List (Nat × Nat) :=
  match m.lookup k with
  | some _ => m
  | none => m ++ [(k, v)]

/-- The error taxonomy of a capture call. `frameCountMismatch` carries the
two counts of the `format_err!` message; `threadUnwind` wraps an unwinder
error that escaped the snapshot loop; `reloadFailed` is a failing
`self.unwinder.reload()?`; `panicNoFallback` marks the `threadid_map[&0]`
lookup panicking because no thread had correlation candidate 0. -/
inductive CapError where
  | frameCountMismatch (nativeCount pythonCount : Nat)
  | threadUnwind (e : UnwindError)
  | reloadFailed
  | panicNoFallback
deriving DecidableEq, Repr

/-- The text of the `format_err!` report for a frame-count mismatch. -/
def report : CapError → String
  | CapError.frameCountMismatch n p =>
    "Failed to merge native and python frames (Have " ++ toString n ++
    " native and " ++ toString p ++ " python"
  | _ => ""

/-- Events observable during a capture, to state ordering facts: a module-map
reload, and the unwinding of one OS thread. -/
inductive Event where
  | reload
  | unwind (tid : Nat)
deriving DecidableEq, Repr

/-- The snapshot loop over `self.process.threads()`: accumulates the
`native_stacks` map (thread ↦ stack, in insertion order), the `threadid_map`
(candidate ↦ first thread with it), the reload flag, and the unwind events. -/
def snapshotLoop (env : CaptureEnv) (threadids : List Nat) :
    List Nat → List (Nat × List Nat) → List (Nat × Nat) → Bool → List Event →
    Bool × List Event × Except UnwindError (List (Nat × List Nat) × List (Nat × Nat))
  | [], nstacks, tmap, flag, evs => (flag, evs, Except.ok (nstacks, tmap))
  | t :: rest, nstacks, tmap, flag, evs =>
    let r := getThreadResolved env threadids t flag
    match r.2 with
    | Except.error e => (r.1, evs ++ [Event.unwind t], Except.error e)
    | Except.ok (stack, pthread_id) =>
      snapshotLoop env threadids rest (nstacks ++ [(t, stack)])
        (insertIfAbsent tmap pthread_id t) r.1 (evs ++ [Event.unwind t])

/-- The correlation step for one trace: `threadid_map.get(&trace.thread_id)`,
falling back to `threadid_map[&0]`. `none` only when even the fallback key is
absent (which would panic in the original). -/
def osThreadOf (tmap : List (Nat × Nat)) (trace : StackTrace) : Option Nat :=
  match tmap.lookup trace.thread_id with
  | some t => some t
  | none => tmap.lookup 0

/-- Embeds `&native_stacks[&os_thread_id]`: the captured raw stack of one OS thread
(every looked-up id was inserted during the snapshot, so the default is never
reached on inputs arising from a capture). -/
def stackFor (nstacks : List (Nat × List Nat)) (os : Nat) : List Nat :=
  (nstacks.lookup os).getD []

/-- The trace produced for one interpreter trace when the parity check
passes: frames replaced by the merged list with the final translate pass
applied to every entry, and the OS thread id recorded. -/
def mergedOutput (env : CaptureEnv) (nstacks : List (Nat × List Nat))
    (trace : StackTrace) (os : Nat) : StackTrace :=
  { thread_id := trace.thread_id, os_thread_id := some os,
    frames := (mergeCore env.sym env.cfg trace.frames (stackFor nstacks os)).1.map
      env.sym.translate }

/-- The per-trace merge of the second loop of `get_native_stack_traces`:
correlate the OS thread (falling back to `threadid_map[&0]`), classify every
raw address, check frame-count parity, run the final translate pass over the
whole merged list, set `os_thread_id` and replace the frames. -/
def processTrace (env : CaptureEnv) (tmap : List (Nat × Nat))
    (nstacks : List (Nat × List Nat)) (trace : StackTrace) :
    Except CapError StackTrace :=
  match osThreadOf tmap trace with
  | none => Except.error CapError.panicNoFallback
  | some os_thread_id =>
    let m := mergeCore env.sym env.cfg trace.frames (stackFor nstacks os_thread_id)
    if m.2 = trace.frames.length then
      Except.ok (mergedOutput env nstacks trace os_thread_id)
    else
      Except.error (CapError.frameCountMismatch m.2 trace.frames.length)

/-- The output trace for one input trace of a successful capture, as a total
function (identity on the unreachable uncorrelated case). -/
def mergedTraceOut (env : CaptureEnv) (tmap : List (Nat × Nat))
    (nstacks : List (Nat × List Nat)) (trace : StackTrace) : StackTrace :=
  match osThreadOf tmap trace with
  | some os => mergedOutput env nstacks trace os
  | none => trace

/-- Result of a capture call: the new reload flag, the event sequence, and
the returned traces or the error. -/
structure CaptureResult where
  newFlag : Bool
  events : List Event
  result : Except CapError (List StackTrace)
deriving Repr

/-- Mapping `processTrace` over all interpreter traces, stopping at the first
error (the `return Err` inside the `for trace in traces.iter_mut()` loop). -/
def mergeTraces (env : CaptureEnv) (tmap : List (Nat × Nat))
    (nstacks : List (Nat × List Nat)) :
    List StackTrace → Except CapError (List StackTrace)
  | [] => Except.ok []
  | trace :: rest =>
    match processTrace env tmap nstacks trace with
    | Except.error e => Except.error e
    | Except.ok out =>
      match mergeTraces env tmap nstacks rest with
      | Except.error e => Except.error e
      | Except.ok outs => Except.ok (out :: outs)

/-- Embeds `get_native_stack_traces` after the (possible) reload: snapshot all
threads under the lock, then merge per trace. -/
def captureMain (env : CaptureEnv) (flag : Bool) (ev0 : List Event) :
    CaptureResult :=
  let threadids := env.pyTraces.map (fun tr => tr.thread_id)
  let s := snapshotLoop env threadids env.threads [] [] flag ev0
  match s.2.2 with
  | Except.error e =>
    { newFlag := s.1, events := s.2.1, result := Except.error (CapError.threadUnwind e) }
  | Except.ok (nstacks, tmap) =>
    { newFlag := s.1, events := s.2.1, result := mergeTraces env tmap nstacks env.pyTraces }

/-- Embeds `NativeStack::get_native_stack_traces`: when `should_reload` is set,
reload the unwinder's module map first (a failing reload aborts the call and
leaves the flag set) and clear the flag, then snapshot and merge. -/
def capture (env : CaptureEnv) (should_reload : Bool) : CaptureResult :=
  if should_reload then
    if env.reloadOk then
      captureMain env false [Event.reload]
    else
      { newFlag := should_reload, events := [Event.reload],
        result := Except.error CapError.reloadFailed }
  else
    captureMain env should_reload []

/-! ## Concrete instances for scenarios, witnesses and counterexamples -/

/-- A merge configuration with the interpreter binary at a typical path and
no support library. -/
def cfgMain : MergeConfig :=
  { python_filename := "/usr/bin/python", libpython_filename := none }

/-- An inert symbolication environment: symbolication always fails,
demangling always fails, the cython rewrites do nothing. -/
def symEnvTrivial : SymEnv :=
  { symbolicate := fun _ => none
    demangleCpp := fun _ => none
    resolveFilename := fun _ _ => none
    cythonIgnore := fun _ => false
    cythonDemangle := fun s => s
    translate := fun f => f }

/-- A sample managed (Python) frame. -/
def frameA : Frame :=
  { filename := "a.py", short_filename := none, line := 1, name := "fa", module := none }

/-- A second sample managed (Python) frame. -/
def frameB : Frame :=
  { filename := "b.py", short_filename := none, line := 2, name := "fb", module := none }

/-- A resolved frame at the interpreter's frame-evaluation entry point inside
the interpreter binary itself. -/
def rfMarker : ResolvedFrame :=
  { module := "/usr/bin/python", function := some "_PyEval_EvalFrameDefault",
    filename := none, line := none, addr := 1000 }

/-- A resolved frame whose module merely CONTAINS the interpreter path as a
substring (neither equal to it nor a prefix of it): the spec's "containment"
reading would classify it as a marker; the code does not. -/
def rfContained : ResolvedFrame :=
  { module := "python", function := some "_PyEval_EvalFrameDefault",
    filename := none, line := none, addr := 1500 }

/-- A resolved mangled C++ application frame (`_Z3fooi`). -/
def rfFoo : ResolvedFrame :=
  { module := "/app/libfoo.so", function := some "_Z3fooi",
    filename := some "foo.cpp", line := some 42, addr := 2000 }

/-- The merged native frame Scenario B expects for `rfFoo` after demangling. -/
def fooFrame : Frame :=
  { filename := "foo.cpp", short_filename := none, line := 42, name := "foo",
    module := some "/app/libfoo.so" }

/-- A resolved frame on the Linux denylist: `__clone` in a libc module. -/
def rfClone : ResolvedFrame :=
  { module := "/lib/x86_64/libc-2.31.so", function := some "__clone",
    filename := none, line := none, addr := 3000 }

/-- A resolved frame with no function name (stripped symbol), for C10. -/
def rfNameless : ResolvedFrame :=
  { module := "/app/libbar.so", function := none,
    filename := some "bar.c", line := some 9, addr := 4000 }

/-- Symbolication environment of Scenario B: raw addresses 1 and 3 are
marker frames, 2 is the mangled `_Z3fooi`, everything else fails. -/
def symEnvB : SymEnv :=
  { symbolicate := fun a =>
      if a = 1 then some [rfMarker]
      else if a = 2 then some [rfFoo]
      else if a = 3 then some [rfMarker]
      else none
    demangleCpp := fun s => if s == "_Z3fooi" then some "foo" else none
    resolveFilename := fun _ _ => none
    cythonIgnore := fun _ => false
    cythonDemangle := fun s => s
    translate := fun f => f }

/-- The interpreter trace of Scenario B: two managed frames. -/
def traceB : StackTrace :=
  { thread_id := 7, os_thread_id := none, frames := [frameA, frameB] }

/-- Capture environment of Scenario B: one OS thread (100) whose raw stack
is [1, 2, 3] with correlation candidate 0. -/
def envB : CaptureEnv :=
  { sym := symEnvB, cfg := cfgMain, reloadOk := true,
    pyTraces := [traceB], threads := [100],
    primarySteps := fun _ => Except.ok
      [ { ip := Except.ok 1, bx := 0 },
        { ip := Except.ok 2, bx := 0 },
        { ip := Except.ok 3, bx := 0 } ],
    secondary := none }

/-- Capture environment of Scenario C: one OS thread (100) with a one-address
stack whose symbolication fails, and an interpreter trace with no managed
frames. -/
def envC3 : CaptureEnv :=
  { sym := symEnvTrivial, cfg := cfgMain, reloadOk := true,
    pyTraces := [ { thread_id := 7, os_thread_id := none, frames := [] } ],
    threads := [100],
    primarySteps := fun _ => Except.ok [ { ip := Except.ok 5, bx := 0 } ],
    secondary := none }

/-- Symbolication environment of the C9 scenario: like Scenario B, but the
final translate pass visibly rewrites every frame name it is given. -/
def symEnvC9 : SymEnv :=
  { symEnvB with translate := fun f => { f with name := f.name ++ "T" } }

/-- An interpreter trace with a single managed frame, for the C9 scenario. -/
def traceC9 : StackTrace :=
  { thread_id := 7, os_thread_id := none, frames := [frameA] }

/-- Capture environment of the C9 scenario: one OS thread whose raw stack is
a single marker address, so the merged list is exactly one managed clone. -/
def envC9 : CaptureEnv :=
  { sym := symEnvC9, cfg := cfgMain, reloadOk := true,
    pyTraces := [traceC9], threads := [100],
    primarySteps := fun _ => Except.ok [ { ip := Except.ok 1, bx := 0 } ],
    secondary := none }

/-- The image of `frameA` under the C9 environment's translate rewrite. -/
def frameAT : Frame :=
  { filename := "a.py", short_filename := none, line := 1, name := "faT",
    module := none }

/-- A cursor step failing with `NoBinaryForAddress(77)`. -/
def stepNoBinary : CursorStep :=
  { ip := Except.error (UnwindError.noBinaryForAddress 77), bx := 0 }

/-- Capture environment for C4: no interpreter traces and no OS threads, so
a capture only exercises the reload logic. -/
def envC4 : CaptureEnv :=
  { sym := symEnvTrivial, cfg := cfgMain, reloadOk := true,
    pyTraces := [], threads := [],
    primarySteps := fun _ => Except.ok [], secondary := none }

/-- Capture environment for C5 without a secondary backend: the single OS
thread's primary cursor fails outright. -/
def envC5 : CaptureEnv :=
  { sym := symEnvTrivial, cfg := cfgMain, reloadOk := true,
    pyTraces := [], threads := [200],
    primarySteps := fun _ => Except.error (UnwindError.other 1),
    secondary := none }

/-- A libunwind fallback backend: the cursor of any thread yields the single
address 42 with candidate value 0. -/
def secondaryStepsC5 (_t : Nat) : Except UnwindError (List LibCursorStep) :=
  Except.ok [ { ip := Except.ok 42, bx := Except.ok 0 } ]

/-- Capture environment for C5 with the secondary backend configured and a
failing primary. -/
def envC5s : CaptureEnv :=
  { sym := symEnvTrivial, cfg := cfgMain, reloadOk := true,
    pyTraces := [], threads := [200],
    primarySteps := fun _ => Except.error (UnwindError.other 1),
    secondary := some secondaryStepsC5 }

/-- Capture environment for C6: one OS thread (100) with an empty raw stack
and correlation candidate 0, and one interpreter trace whose thread id (9)
matches no candidate. -/
def envC6 : CaptureEnv :=
  { sym := symEnvTrivial, cfg := cfgMain, reloadOk := true,
    pyTraces := [ { thread_id := 9, os_thread_id := none, frames := [] } ],
    threads := [100],
    primarySteps := fun _ => Except.ok [], secondary := none }

/-- The native-application frame `processResolved` builds for a resolved
frame `rf` once the (possibly demangled) name `nm` is chosen, as a statement
helper. -/
def nativeFrameOf (env : SymEnv) (rf : ResolvedFrame) (nm : String) : Frame :=
  let filename :=
    match rf.filename with
    | some f => (env.resolveFilename f rf.module).getD f
    | none => rf.module
  { filename := filename, line := Int.ofNat (rf.line.getD 0),
    name := env.cythonDemangle nm, short_filename := none,
    module := some rf.module }

/-! ## Helper lemmas -/

/-- Lemma: `hex16` is "0x" followed by exactly 16 hexadecimal digit characters. -/
theorem hex16_digits (addr : Nat) :
    ∃ s : String, hex16 addr = "0x" ++ s ∧ s.length = 16 ∧
      ∀ c ∈ s.data, c ∈ ("0123456789abcdef" : String).data := by
  refine ⟨String.mk (((List.range 16).reverse).map
    (fun i => Nat.digitChar (addr / 16 ^ i % 16))), rfl, ?_, ?_⟩
  · simp [String.length]
  · intro c hc
    rcases List.mem_map.mp hc with ⟨i, _, rfl⟩
    have hlt : addr / 16 ^ i % 16 < 16 := Nat.mod_lt _ (by norm_num)
    have hall : ∀ n, n < 16 →
        Nat.digitChar n ∈ ("0123456789abcdef" : String).data := by decide
    exact hall _ hlt

/-- A function name accepted by the Linux denylist is one of its three
entries. -/
theorem ignore_frame_names {fn m : String} (h : ignore_frame fn m = true) :
    fn = "__libc_start_main" ∨ fn = "__clone" ∨ fn = "start_thread" := by
  unfold ignore_frame at h
  split at h
  · next hc =>
    simp only [Bool.and_eq_true, beq_iff_eq] at hc
    exact Or.inl hc.1
  · split at h
    · next hc =>
      simp only [Bool.and_eq_true, beq_iff_eq] at hc
      exact Or.inr (Or.inl hc.1)
    · split at h
      · next hc =>
        simp only [Bool.and_eq_true, beq_iff_eq] at hc
        exact Or.inr (Or.inr hc.1)
      · exact absurd h (by simp)

/-- The value component of `runCursor` (stack, candidate, or error) does not
depend on the incoming reload flag; only the returned flag does. -/
theorem runCursor_snd_flag_indep (tids : List Nat) :
    ∀ (steps : List CursorStep) (st : List Nat) (bx : Nat) (f g : Bool),
    (runCursor tids f st bx steps).2 = (runCursor tids g st bx steps).2 := by
  intro steps
  induction steps with
  | nil => intro st bx f g; rfl
  | cons step rest ih =>
    intro st bx f g
    rcases step with ⟨ip, sbx⟩
    cases ip with
    | error e => cases e <;> rfl
    | ok v =>
      cases e2 : (Except.ok v : Except UnwindError Nat) with
      | error e => cases e2
      | ok v2 =>
        simp only [runCursor]
        exact ih _ _ _ _

/-- The value component of `get_thread` does not depend on the incoming
reload flag. -/
theorem get_thread_snd_flag_indep (tids : List Nat)
    (ci : Except UnwindError (List CursorStep)) (f g : Bool) :
    (get_thread tids ci f).2 = (get_thread tids ci g).2 := by
  cases ci with
  | error e => rfl
  | ok steps => exact runCursor_snd_flag_indep tids steps [] 0 f g

/-- The value component of the per-thread unwind (with fallback) does not
depend on the incoming reload flag. -/
theorem getThreadResolved_snd_flag_indep (env : CaptureEnv) (tids : List Nat)
    (t : Nat) (f g : Bool) :
    (getThreadResolved env tids t f).2 = (getThreadResolved env tids t g).2 := by
  have h := get_thread_snd_flag_indep tids (env.primarySteps t) f g
  unfold getThreadResolved
  cases hf : (get_thread tids (env.primarySteps t) f).2 with
  | ok x =>
    have hg : (get_thread tids (env.primarySteps t) g).2 = Except.ok x := by
      rw [← h]; exact hf
    simp only [hf, hg]
  | error e =>
    have hg : (get_thread tids (env.primarySteps t) g).2 = Except.error e := by
      rw [← h]; exact hf
    cases env.secondary <;> simp only [hf, hg]

/-- Lookup distributes over append: the left list wins when it has the key. -/
theorem lookup_append (m l : List (Nat × Nat)) (k : Nat) :
    (m ++ l).lookup k =
      match m.lookup k with
      | some v => some v
      | none => l.lookup k := by
  induction m with
  | nil => simp [List.lookup]
  | cons a as ih =>
    cases hbe : (k == a.1) with
    | true => simp only [List.cons_append, List.lookup, hbe]
    | false => simp only [List.cons_append, List.lookup, hbe]; exact ih

/-- Inserting a fresh key makes it found. -/
theorem lookup_insertIfAbsent_self (m : List (Nat × Nat)) (k v : Nat)
    (h : m.lookup k = none) : (insertIfAbsent m k v).lookup k = some v := by
  unfold insertIfAbsent
  rw [h, lookup_append, h]
  simp [List.lookup]

/-- Insertion never changes the binding of an already-present key. -/
theorem lookup_insertIfAbsent_preserve (m : List (Nat × Nat)) (k k' v w : Nat)
    (h : m.lookup k = some w) : (insertIfAbsent m k' v).lookup k = some w := by
  unfold insertIfAbsent
  cases h' : m.lookup k' with
  | some _ => exact h
  | none => rw [lookup_append, h]

/-- Insertion under a different key does not affect a lookup. -/
theorem lookup_insertIfAbsent_ne (m : List (Nat × Nat)) (k k' v : Nat)
    (hne : k ≠ k') : (insertIfAbsent m k' v).lookup k = m.lookup k := by
  unfold insertIfAbsent
  cases h' : m.lookup k' with
  | some _ => rfl
  | none =>
    rw [lookup_append]
    cases h : m.lookup k with
    | some w => rfl
    | none =>
      have hb : (k == k') = false := by simp [hne]
      simp [List.lookup, hb]

/-- If the snapshot loop succeeds, every listed thread's unwind (with
fallback) succeeded. -/
theorem snapshotLoop_ok_all_threads (env : CaptureEnv) (tids : List Nat) :
    ∀ (ts : List Nat) (nst0 : List (Nat × List Nat)) (tm0 : List (Nat × Nat))
      (f : Bool) (ev0 : List Event) (f' : Bool) (ev' : List Event)
      (out : List (Nat × List Nat) × List (Nat × Nat)),
    snapshotLoop env tids ts nst0 tm0 f ev0 = (f', ev', Except.ok out) →
    ∀ t ∈ ts, ∃ x, (getThreadResolved env tids t false).2 = Except.ok x := by
  intro ts
  induction ts with
  | nil => intro _ _ _ _ _ _ _ _ t ht; cases ht
  | cons t0 rest ih =>
    intro nst0 tm0 f ev0 f' ev' out hrun t ht
    cases hres : (getThreadResolved env tids t0 f).2 with
    | error e =>
      simp only [snapshotLoop, hres] at hrun
      exact absurd hrun (by simp)
    | ok x =>
      rcases x with ⟨stack, pid⟩
      simp only [snapshotLoop, hres] at hrun
      rcases List.mem_cons.mp ht with rfl | hmem
      · refine ⟨(stack, pid), ?_⟩
        rw [getThreadResolved_snd_flag_indep env tids t false f]
        exact hres
      · exact ih _ _ _ _ _ _ _ hrun t hmem

/-- If one thread's unwind (with fallback) fails, the whole capture call
fails with a thread-unwind error. -/
theorem capture_error_of_thread_error (env : CaptureEnv) (t : Nat)
    (e : UnwindError) (ht : t ∈ env.threads)
    (herr : (getThreadResolved env (env.pyTraces.map (fun tr => tr.thread_id))
      t false).2 = Except.error e) :
    ∃ e2, (capture env false).result = Except.error (CapError.threadUnwind e2) := by
  rcases hsnap : snapshotLoop env (env.pyTraces.map (fun tr => tr.thread_id))
      env.threads [] [] false [] with ⟨f', ev', r⟩
  cases r with
  | ok out =>
    rcases snapshotLoop_ok_all_threads env _ env.threads [] [] false [] f' ev'
      out hsnap t ht with ⟨x, hx⟩
    rw [herr] at hx
    cases hx
  | error e2 =>
    refine ⟨e2, ?_⟩
    simp [capture, captureMain, hsnap]

/-- The snapshot loop only ever appends thread-unwind events to the incoming
event list. -/
theorem snapshotLoop_events_shape (env : CaptureEnv) (tids : List Nat) :
    ∀ (ts : List Nat) (nst0 : List (Nat × List Nat)) (tm0 : List (Nat × Nat))
      (f : Bool) (ev0 : List Event),
    ∃ tail, (snapshotLoop env tids ts nst0 tm0 f ev0).2.1 = ev0 ++ tail ∧
      ∀ e ∈ tail, ∃ t, e = Event.unwind t := by
  intro ts
  induction ts with
  | nil =>
    intro nst0 tm0 f ev0
    exact ⟨[], by simp [snapshotLoop], by simp⟩
  | cons t rest ih =>
    intro nst0 tm0 f ev0
    cases hres : (getThreadResolved env tids t f).2 with
    | error e =>
      refine ⟨[Event.unwind t], ?_, ?_⟩
      · simp [snapshotLoop, hres]
      · intro e2 he2
        rcases List.mem_singleton.mp he2 with rfl
        exact ⟨t, rfl⟩
    | ok x =>
      rcases x with ⟨stack, pid⟩
      rcases ih (nst0 ++ [(t, stack)]) (insertIfAbsent tm0 pid t)
        ((getThreadResolved env tids t f).1) (ev0 ++ [Event.unwind t]) with
        ⟨tail, htail, hall⟩
      refine ⟨Event.unwind t :: tail, ?_, ?_⟩
      · simp only [snapshotLoop, hres]
        rw [htail]
        simp
      · intro e2 he2
        rcases List.mem_cons.mp he2 with rfl | hmem
        · exact ⟨t, rfl⟩
        · exact hall e2 hmem

/-- When every trace merges successfully, the trace loop returns the mapped
outputs in order. -/
theorem mergeTraces_ok_of_all (env : CaptureEnv) (tmap : List (Nat × Nat))
    (nst : List (Nat × List Nat)) :
    ∀ (traces : List StackTrace),
    (∀ tr ∈ traces,
      processTrace env tmap nst tr = Except.ok (mergedTraceOut env tmap nst tr)) →
    mergeTraces env tmap nst traces =
      Except.ok (traces.map (mergedTraceOut env tmap nst)) := by
  intro traces
  induction traces with
  | nil => intro _; rfl
  | cons tr rest ih =>
    intro hall
    have h1 := hall tr (List.mem_cons_self tr rest)
    have h2 := ih (fun t ht => hall t (List.mem_cons_of_mem tr ht))
    simp [mergeTraces, h1, h2]

/-- Correlation success plus frame-count parity make the per-trace merge
succeed with the translated merged frames and the OS thread id recorded. -/
theorem processTrace_ok (env : CaptureEnv) (tmap : List (Nat × Nat))
    (nst : List (Nat × List Nat)) (trace : StackTrace) (os : Nat)
    (hos : osThreadOf tmap trace = some os)
    (hpar : (mergeCore env.sym env.cfg trace.frames (stackFor nst os)).2 =
      trace.frames.length) :
    processTrace env tmap nst trace = Except.ok (mergedOutput env nst trace os) ∧
    mergedTraceOut env tmap nst trace = mergedOutput env nst trace os := by
  constructor
  · simp [processTrace, hos, hpar]
  · simp [mergedTraceOut, hos]

/-- An error from the trace loop comes from some trace in the list. -/
theorem mergeTraces_error_inv (env : CaptureEnv) (tmap : List (Nat × Nat))
    (nst : List (Nat × List Nat)) :
    ∀ (traces : List StackTrace) (e : CapError),
    mergeTraces env tmap nst traces = Except.error e →
    ∃ tr ∈ traces, processTrace env tmap nst tr = Except.error e := by
  intro traces
  induction traces with
  | nil => intro e h; exact absurd h (by simp [mergeTraces])
  | cons tr rest ih =>
    intro e h
    cases hp : processTrace env tmap nst tr with
    | error e2 =>
      simp only [mergeTraces, hp, Except.error.injEq] at h
      subst h
      exact ⟨tr, List.mem_cons_self _ _, hp⟩
    | ok out =>
      cases hm : mergeTraces env tmap nst rest with
      | error e2 =>
        simp only [mergeTraces, hp, hm, Except.error.injEq] at h
        subst h
        rcases ih e2 hm with ⟨tr2, htr2, hp2⟩
        exact ⟨tr2, List.mem_cons_of_mem _ htr2, hp2⟩
      | ok outs =>
        simp only [mergeTraces, hp, hm] at h
        exact absurd h (by simp)

/-- A frame-count-mismatch error from one trace determines both reported
counts and their disagreement. -/
theorem processTrace_mismatch_inv (env : CaptureEnv) (tmap : List (Nat × Nat))
    (nst : List (Nat × List Nat)) (trace : StackTrace) (n p : Nat)
    (h : processTrace env tmap nst trace =
      Except.error (CapError.frameCountMismatch n p)) :
    ∃ os, osThreadOf tmap trace = some os ∧
      n = (mergeCore env.sym env.cfg trace.frames (stackFor nst os)).2 ∧
      p = trace.frames.length ∧ n ≠ p := by
  cases hos : osThreadOf tmap trace with
  | none => simp [processTrace, hos] at h
  | some os =>
    refine ⟨os, rfl, ?_⟩
    by_cases hpar : (mergeCore env.sym env.cfg trace.frames (stackFor nst os)).2 =
        trace.frames.length
    · simp [processTrace, hos, hpar] at h
    · simp only [processTrace, hos, if_neg hpar, Except.error.injEq,
        CapError.frameCountMismatch.injEq] at h
      refine ⟨h.1.symm, h.2.symm, fun hnp => hpar ?_⟩
      rw [h.1, hnp, h.2]

/-- The snapshot loop preserves an existing binding of the threadid map. -/
theorem snapshotLoop_preserve_lookup (env : CaptureEnv) (tids : List Nat)
    (k v : Nat) :
    ∀ (ts : List Nat) (nst0 : List (Nat × List Nat)) (tm0 : List (Nat × Nat))
      (f : Bool) (ev0 : List Event) (f' : Bool) (ev' : List Event)
      (nst : List (Nat × List Nat)) (tm : List (Nat × Nat)),
    tm0.lookup k = some v →
    snapshotLoop env tids ts nst0 tm0 f ev0 = (f', ev', Except.ok (nst, tm)) →
    tm.lookup k = some v := by
  intro ts
  induction ts with
  | nil =>
    intro nst0 tm0 f ev0 f' ev' nst tm h0 hrun
    simp only [snapshotLoop, Prod.mk.injEq, Except.ok.injEq] at hrun
    rw [← hrun.2.2.2]
    exact h0
  | cons t rest ih =>
    intro nst0 tm0 f ev0 f' ev' nst tm h0 hrun
    cases hres : (getThreadResolved env tids t f).2 with
    | error e =>
      simp only [snapshotLoop, hres] at hrun
      exact absurd hrun (by simp)
    | ok x =>
      rcases x with ⟨stack, pid⟩
      simp only [snapshotLoop, hres] at hrun
      exact ih _ _ _ _ _ _ _ _
        (lookup_insertIfAbsent_preserve tm0 k pid t v h0) hrun

/-- In the threadid map built by a successful snapshot, key 0 is bound to the
first listed thread whose correlation candidate was 0, provided it was not
bound before and no earlier thread has candidate 0. -/
theorem snapshotLoop_first_zero_candidate (env : CaptureEnv) (tids : List Nat) :
    ∀ (pre : List Nat) (t0 : Nat) (post : List Nat)
      (nst0 : List (Nat × List Nat)) (tm0 : List (Nat × Nat))
      (f : Bool) (ev0 : List Event) (f' : Bool) (ev' : List Event)
      (nst : List (Nat × List Nat)) (tm : List (Nat × Nat)),
    snapshotLoop env tids (pre ++ t0 :: post) nst0 tm0 f ev0 =
      (f', ev', Except.ok (nst, tm)) →
    tm0.lookup 0 = none →
    (∀ t ∈ pre, ∀ s b,
      (getThreadResolved env tids t false).2 = Except.ok (s, b) → b ≠ 0) →
    (∃ s, (getThreadResolved env tids t0 false).2 = Except.ok (s, 0)) →
    tm.lookup 0 = some t0 := by
  intro pre
  induction pre with
  | nil =>
    intro t0 post nst0 tm0 f ev0 f' ev' nst tm hrun h0 hpre ht0
    rcases ht0 with ⟨s, hs⟩
    have hsf : (getThreadResolved env tids t0 f).2 = Except.ok (s, 0) := by
      rw [getThreadResolved_snd_flag_indep env tids t0 f false]
      exact hs
    simp only [List.nil_append, snapshotLoop, hsf] at hrun
    exact snapshotLoop_preserve_lookup env tids 0 t0 post _ _ _ _ _ _ _ _
      (lookup_insertIfAbsent_self tm0 0 t0 h0) hrun
  | cons p pre2 ih =>
    intro t0 post nst0 tm0 f ev0 f' ev' nst tm hrun h0 hpre ht0
    cases hres : (getThreadResolved env tids p f).2 with
    | error e =>
      simp only [List.cons_append, snapshotLoop, hres] at hrun
      exact absurd hrun (by simp)
    | ok x =>
      rcases x with ⟨stack, b⟩
      have hb : b ≠ 0 := by
        refine hpre p (List.mem_cons_self _ _) stack b ?_
        rw [getThreadResolved_snd_flag_indep env tids p false f]
        exact hres
      simp only [List.cons_append, snapshotLoop, hres] at hrun
      have h02 : (insertIfAbsent tm0 b p).lookup 0 = none := by
        rw [lookup_insertIfAbsent_ne tm0 0 b p (fun hx => hb hx.symm)]
        exact h0
      exact ih t0 post _ _ _ _ f' ev' nst tm hrun h02
        (fun t ht => hpre t (List.mem_cons_of_mem _ ht)) ht0

/-- When processing reaches a failing trace (all earlier ones succeeded),
the trace loop returns exactly that trace's error. -/
theorem mergeTraces_error_at_first (env : CaptureEnv) (tmap : List (Nat × Nat))
    (nst : List (Nat × List Nat)) (e : CapError) :
    ∀ (pre : List StackTrace) (tr : StackTrace) (post : List StackTrace),
    (∀ t2 ∈ pre, ∃ o, processTrace env tmap nst t2 = Except.ok o) →
    processTrace env tmap nst tr = Except.error e →
    mergeTraces env tmap nst (pre ++ tr :: post) = Except.error e := by
  intro pre
  induction pre with
  | nil =>
    intro tr post _ herr
    simp [mergeTraces, herr]
  | cons t2 pre2 ih =>
    intro tr post hok herr
    rcases hok t2 (List.mem_cons_self _ _) with ⟨o, ho⟩
    have h2 := ih tr post (fun x hx => hok x (List.mem_cons_of_mem _ hx)) herr
    simp [mergeTraces, ho, h2]

/-- When the snapshot loop reaches a failing thread (all earlier ones
succeeded), it returns exactly that thread's error. -/
theorem snapshotLoop_error_at_first (env : CaptureEnv) (tids : List Nat)
    (e : UnwindError) :
    ∀ (pre : List Nat) (t : Nat) (post : List Nat)
      (nst0 : List (Nat × List Nat)) (tm0 : List (Nat × Nat))
      (f : Bool) (ev0 : List Event),
    (∀ t2 ∈ pre, ∃ x, (getThreadResolved env tids t2 false).2 = Except.ok x) →
    (getThreadResolved env tids t false).2 = Except.error e →
    ∃ f2 ev2, snapshotLoop env tids (pre ++ t :: post) nst0 tm0 f ev0 =
      (f2, ev2, Except.error e) := by
  intro pre
  induction pre with
  | nil =>
    intro t post nst0 tm0 f ev0 _ herr
    have herrf : (getThreadResolved env tids t f).2 = Except.error e := by
      rw [getThreadResolved_snd_flag_indep env tids t f false]
      exact herr
    refine ⟨(getThreadResolved env tids t f).1, ev0 ++ [Event.unwind t], ?_⟩
    simp [snapshotLoop, herrf]
  | cons t2 pre2 ih =>
    intro t post nst0 tm0 f ev0 hok herr
    rcases hok t2 (List.mem_cons_self _ _) with ⟨x, hx⟩
    rcases x with ⟨stack, pid⟩
    have hxf : (getThreadResolved env tids t2 f).2 = Except.ok (stack, pid) := by
      rw [getThreadResolved_snd_flag_indep env tids t2 f false]
      exact hx
    rcases ih t post (nst0 ++ [(t2, stack)]) (insertIfAbsent tm0 pid t2)
      ((getThreadResolved env tids t2 f).1) (ev0 ++ [Event.unwind t2])
      (fun y hy => hok y (List.mem_cons_of_mem _ hy)) herr with ⟨f2, ev2, h2⟩
    refine ⟨f2, ev2, ?_⟩
    simp only [List.cons_append, snapshotLoop, hxf]
    exact h2

/-- The event list of a capture's main phase is exactly what the snapshot
loop produced, whichever way the call ends. -/
theorem captureMain_events (env : CaptureEnv) (flag : Bool) (ev0 : List Event) :
    (captureMain env flag ev0).events =
      (snapshotLoop env (env.pyTraces.map (fun tr => tr.thread_id))
        env.threads [] [] flag ev0).2.1 := by
  rcases h : snapshotLoop env (env.pyTraces.map (fun tr => tr.thread_id))
      env.threads [] [] flag ev0 with ⟨f', ev', r⟩
  simp only [captureMain, h]
  cases r <;> rfl

/-! ## Claim C1 -/

/-- C1 counterexample: a resolved module that matches the interpreter binary
path only by containment (`"python"` is a substring of `"/usr/bin/python"`,
but neither equal to it nor a prefix of it in the direction the code tests),
at a marker function name, is NOT treated as an interpreter marker: no
managed frame is appended (a native frame is built instead) and the
managed-frame cursor does not advance. -/
theorem C1_containment_counterexample :
    specMarkerModule cfgMain rfContained.module = true ∧
    rfContained.function = some "_PyEval_EvalFrameDefault" ∧
    "_PyEval_EvalFrameDefault" ∈ markerFunctions ∧
    processResolved symEnvTrivial cfgMain [frameA] 0 rfContained ≠ ([frameA], 0 + 1) ∧
    (processResolved symEnvTrivial cfgMain [frameA] 0 rfContained).2 = 0 := by
  refine ⟨by decide, rfl, by decide, by decide, by decide⟩

/-- C1 (amended): for every resolved address whose module satisfies the
code's marker-module test — equal to the interpreter binary path, equal to
the support-library path, or a PREFIX of the interpreter binary path (no
substring containment) — and whose function name is in the fixed marker set,
the merge appends a clone of the next unconsumed managed frame and advances
the managed-frame cursor, advancing (appending nothing, raising nothing) even
when the managed list is exhausted. -/
theorem C1_marker_appends_clone_and_advances (env : SymEnv) (cfg : MergeConfig)
    (pyFrames : List Frame) (idx : Nat) (rf : ResolvedFrame) (fn : String)
    (hmod : isMarkerModule cfg rf.module = true)
    (hfn : rf.function = some fn)
    (hmk : fn ∈ markerFunctions) :
    (∀ h : idx < pyFrames.length,
      processResolved env cfg pyFrames idx rf = ([pyFrames.get ⟨idx, h⟩], idx + 1)) ∧
    (pyFrames.length ≤ idx →
      processResolved env cfg pyFrames idx rf = ([], idx + 1)) := by
  constructor
  · intro h
    simp [processResolved, hmod, hfn, hmk, h]
  · intro h
    simp [processResolved, hmod, hfn, hmk, Nat.not_lt.mpr h]

/-- C1 witness: the amended theorem applied at the concrete marker frame,
once with one unconsumed managed frame and once with the managed list
exhausted. -/
theorem C1_marker_witness :
    processResolved symEnvTrivial cfgMain [frameA] 0 rfMarker = ([frameA], 1) ∧
    processResolved symEnvTrivial cfgMain [] 0 rfMarker = ([], 1) := by
  constructor
  · have h := (C1_marker_appends_clone_and_advances symEnvTrivial cfgMain [frameA] 0
      rfMarker "_PyEval_EvalFrameDefault" (by decide) rfl (by decide)).1 (by decide)
    simpa using h
  · exact (C1_marker_appends_clone_and_advances symEnvTrivial cfgMain [] 0
      rfMarker "_PyEval_EvalFrameDefault" (by decide) rfl (by decide)).2 (by decide)

/-! ## Claim C3 -/

/-- C3: if symbolication of a raw address fails, exactly one stub frame is
appended at that position — filename "?", name "0x" followed by exactly 16
hexadecimal digits of the raw address, line 0, no module — the
managed-frame cursor is unchanged; and (Scenario C) a capture containing
such an address still succeeds. -/
theorem C3_symbolication_failure_stub :
    (∀ (env : SymEnv) (cfg : MergeConfig) (pyFrames : List Frame)
       (st : List Frame × Nat) (addr : Nat),
       env.symbolicate addr = none →
       processAddr env cfg pyFrames st addr = (st.1 ++ [stubFrame addr], st.2)) ∧
    (∀ addr : Nat,
       (stubFrame addr).filename = "?" ∧ (stubFrame addr).line = 0 ∧
       (stubFrame addr).module = none ∧
       ∃ s : String, (stubFrame addr).name = "0x" ++ s ∧ s.length = 16 ∧
         ∀ c ∈ s.data, c ∈ ("0123456789abcdef" : String).data) ∧
    (capture envC3 false).result =
      Except.ok [{ thread_id := 7, os_thread_id := some 100,
                   frames := [stubFrame 5] }] := by
  refine ⟨?_, ?_, by decide⟩
  · intro env cfg pyFrames st addr hfail
    unfold processAddr
    rw [hfail]
  · intro addr
    exact ⟨rfl, rfl, rfl, hex16_digits addr⟩

/-- C3 witness: the stub equation applied at a concrete failing address. -/
theorem C3_stub_witness :
    processAddr symEnvTrivial cfgMain [frameA] ([frameB], 1) 9 =
      ([frameB, stubFrame 9], 1) := by
  have h := C3_symbolication_failure_stub.1 symEnvTrivial cfgMain [frameA]
    ([frameB], 1) 9 rfl
  simpa using h

/-! ## Claim C7 -/

/-- C7: a resolved frame whose (function, module) pair matches the Linux
denylist contributes nothing: no frame is appended and the marker count
(managed-frame cursor) is unchanged; consequently an address resolving to
only such a frame leaves the whole merge state untouched. -/
theorem C7_denylisted_frame_dropped (env : SymEnv) (cfg : MergeConfig)
    (pyFrames : List Frame) (idx : Nat) (rf : ResolvedFrame) (fn : String)
    (hfn : rf.function = some fn)
    (hign : ignore_frame fn rf.module = true) :
    processResolved env cfg pyFrames idx rf = ([], idx) ∧
    (∀ (st : List Frame × Nat) (addr : Nat),
       env.symbolicate addr = some [rf] →
       processAddr env cfg pyFrames st addr = st) := by
  have hnm : fn ∉ markerFunctions := by
    rcases ignore_frame_names hign with h | h | h <;> subst h <;> decide
  have hmain : processResolved env cfg pyFrames idx rf = ([], idx) := by
    cases hmod : isMarkerModule cfg rf.module with
    | true => simp [processResolved, hmod, hfn, hnm]
    | false => simp [processResolved, hmod, hfn, hign]
  refine ⟨hmain, ?_⟩
  intro st addr hsym
  unfold processAddr
  rw [hsym]
  have hmain2 : processResolved env cfg pyFrames st.2 rf = ([], st.2) := by
    cases hmod : isMarkerModule cfg rf.module with
    | true => simp [processResolved, hmod, hfn, hnm]
    | false => simp [processResolved, hmod, hfn, hign]
  simp [List.foldl, hmain2]

/-- C7 witness: the denylisted `__clone`-in-libc frame dropped at a concrete
input, via the theorem. -/
theorem C7_denylist_witness :
    processResolved symEnvTrivial cfgMain [frameA] 1 rfClone = ([], 1) := by
  exact (C7_denylisted_frame_dropped symEnvTrivial cfgMain [frameA] 1 rfClone
    "__clone" rfl (by decide)).1

/-! ## Claim C8 -/

/-- C8: for a native-application frame whose function name starts with the
mangled prefix, demangling (parameter lists stripped) is attempted: on
success the demangled name is used for the merged frame, on failure the
original name is kept (stated with the cython name rewrite inert, as it acts
after this choice); and Scenario B: raw stack [marker, `_Z3fooi`, marker]
with a 2-frame managed trace merges successfully into exactly
[managed-frame-0, native frame named "foo", managed-frame-1]. -/
theorem C8_demangling_and_scenarioB :
    (∀ (env : SymEnv) (cfg : MergeConfig) (pyFrames : List Frame) (idx : Nat)
       (rf : ResolvedFrame) (fn d : String),
       rf.function = some fn →
       isMarkerModule cfg rf.module = false →
       ignore_frame fn rf.module = false →
       strStartsWith fn "_" = true →
       env.demangleCpp fn = some d →
       env.cythonIgnore d = false →
       (∀ s, env.cythonDemangle s = s) →
       ∃ fr, processResolved env cfg pyFrames idx rf = ([fr], idx) ∧ fr.name = d) ∧
    (∀ (env : SymEnv) (cfg : MergeConfig) (pyFrames : List Frame) (idx : Nat)
       (rf : ResolvedFrame) (fn : String),
       rf.function = some fn →
       isMarkerModule cfg rf.module = false →
       ignore_frame fn rf.module = false →
       env.demangleCpp fn = none →
       env.cythonIgnore fn = false →
       (∀ s, env.cythonDemangle s = s) →
       ∃ fr, processResolved env cfg pyFrames idx rf = ([fr], idx) ∧ fr.name = fn) ∧
    processTrace envB [(0, 100)] [(100, [1, 2, 3])] traceB =
      Except.ok { thread_id := 7, os_thread_id := some 100,
                  frames := [frameA, fooFrame, frameB] } := by
  refine ⟨?_, ?_, by decide⟩
  · intro env cfg pyFrames idx rf fn d hfn hmod hign hpre hdem hci hcd
    refine ⟨nativeFrameOf env rf d, ?_, ?_⟩
    · simp [processResolved, nativeFrameOf, hfn, hmod, hign, hpre, hdem, hci, hcd]
    · simp [nativeFrameOf, hcd]
  · intro env cfg pyFrames idx rf fn hfn hmod hign hdem hci hcd
    refine ⟨nativeFrameOf env rf fn, ?_, ?_⟩
    · cases hpre : strStartsWith fn "_" with
      | true =>
        simp [processResolved, nativeFrameOf, hfn, hmod, hign, hpre, hdem, hci, hcd]
      | false =>
        simp [processResolved, nativeFrameOf, hfn, hmod, hign, hpre, hdem, hci, hcd]
    · simp [nativeFrameOf, hcd]

/-- C8 witness: demangling success applied at the concrete `_Z3fooi` frame
in the Scenario B environment. -/
theorem C8_demangle_witness :
    ∃ fr, processResolved symEnvB cfgMain [] 0 rfFoo = ([fr], 0) ∧
      fr.name = "foo" := by
  exact C8_demangling_and_scenarioB.1 symEnvB cfgMain [] 0 rfFoo "_Z3fooi" "foo"
    rfl (by decide) (by decide) (by decide) (by decide) (by decide) (fun s => rfl)

/-! ## Claim C10 -/

/-- C10: a resolved address with no function name yields a frame using the
module path as filename, "0x" plus 16 hex digits of the RESOLVED address as
name, line 0, and the module path as owning module — distinguishable from
the symbolication-failure stub by both the filename (module path vs "?") and
the module field (some vs none). -/
theorem C10_nameless_resolved_frame (env : SymEnv) (cfg : MergeConfig)
    (pyFrames : List Frame) (idx : Nat) (rf : ResolvedFrame)
    (hmod : isMarkerModule cfg rf.module = false)
    (hfn : rf.function = none) :
    processResolved env cfg pyFrames idx rf =
      ([{ filename := rf.module, name := hex16 rf.addr, line := 0,
          short_filename := none, module := some rf.module }], idx) ∧
    some rf.module ≠ (stubFrame rf.addr).module ∧
    (stubFrame rf.addr).filename = "?" := by
  refine ⟨?_, by simp [stubFrame], rfl⟩
  simp [processResolved, hmod, hfn]

/-- C10 witness: the nameless-symbol frame at a concrete resolved address. -/
theorem C10_nameless_witness :
    processResolved symEnvTrivial cfgMain [] 3 rfNameless =
      ([{ filename := "/app/libbar.so", name := hex16 4000, line := 0,
          short_filename := none, module := some "/app/libbar.so" }], 3) := by
  exact (C10_nameless_resolved_frame symEnvTrivial cfgMain [] 3 rfNameless
    (by decide) rfl).1

/-! ## Claim C2 -/

/-- C2: after a successful snapshot, if every interpreter trace's
interpreter-marker count equals its managed frame count the capture returns
the full set of merged traces; and whenever the capture returns a
frame-count-mismatch error, the two reported counts disagree, they are the
marker count and managed count of one of the processed traces, and the
error's report text contains both counts. -/
theorem C2_frame_count_parity (env : CaptureEnv)
    (nst : List (Nat × List Nat)) (tmap : List (Nat × Nat))
    (flag' : Bool) (evs : List Event)
    (hsnap : snapshotLoop env (env.pyTraces.map (fun tr => tr.thread_id))
      env.threads [] [] false [] = (flag', evs, Except.ok (nst, tmap))) :
    ((∀ tr ∈ env.pyTraces, ∃ os, osThreadOf tmap tr = some os ∧
        (mergeCore env.sym env.cfg tr.frames (stackFor nst os)).2 =
          tr.frames.length) →
      (capture env false).result =
        Except.ok (env.pyTraces.map (mergedTraceOut env tmap nst))) ∧
    (∀ (pre : List StackTrace) (tr : StackTrace) (post : List StackTrace)
       (os : Nat),
       env.pyTraces = pre ++ tr :: post →
       (∀ t2 ∈ pre, ∃ o, processTrace env tmap nst t2 = Except.ok o) →
       osThreadOf tmap tr = some os →
       (mergeCore env.sym env.cfg tr.frames (stackFor nst os)).2 ≠
         tr.frames.length →
       (capture env false).result = Except.error (CapError.frameCountMismatch
         (mergeCore env.sym env.cfg tr.frames (stackFor nst os)).2
         tr.frames.length)) ∧
    (∀ n p, (capture env false).result =
        Except.error (CapError.frameCountMismatch n p) →
      n ≠ p ∧
      (∃ tr ∈ env.pyTraces, ∃ os, osThreadOf tmap tr = some os ∧
        n = (mergeCore env.sym env.cfg tr.frames (stackFor nst os)).2 ∧
        p = tr.frames.length) ∧
      ∃ s1 s2 s3 : String,
        report (CapError.frameCountMismatch n p) =
          s1 ++ toString n ++ s2 ++ toString p ++ s3) := by
  have hcap : (capture env false).result = mergeTraces env tmap nst env.pyTraces := by
    simp [capture, captureMain, hsnap]
  refine ⟨?_, ?_, ?_⟩
  · intro hall
    rw [hcap]
    refine mergeTraces_ok_of_all env tmap nst env.pyTraces ?_
    intro tr htr
    rcases hall tr htr with ⟨os, hos, hpar⟩
    rcases processTrace_ok env tmap nst tr os hos hpar with ⟨h1, h2⟩
    rw [h1, h2]
  · intro pre tr post os hsplit hok hos hpar
    have herr : processTrace env tmap nst tr = Except.error
        (CapError.frameCountMismatch
          (mergeCore env.sym env.cfg tr.frames (stackFor nst os)).2
          tr.frames.length) := by
      simp only [processTrace, hos, if_neg hpar]
    rw [hcap, hsplit]
    exact mergeTraces_error_at_first env tmap nst _ pre tr post hok herr
  · intro n p herr
    rw [hcap] at herr
    rcases mergeTraces_error_inv env tmap nst env.pyTraces _ herr with ⟨tr, htr, hp⟩
    rcases processTrace_mismatch_inv env tmap nst tr n p hp with
      ⟨os, hos, h1, h2, hne⟩
    exact ⟨hne, ⟨tr, htr, os, hos, h1, h2⟩,
      "Failed to merge native and python frames (Have ", " native and ",
      " python", rfl⟩

/-- C2 witness: the parity-success direction applied to the Scenario B
capture environment. -/
theorem C2_parity_witness :
    (capture envB false).result =
      Except.ok [{ thread_id := 7, os_thread_id := some 100,
                   frames := [frameA, fooFrame, frameB] }] := by
  have h := (C2_frame_count_parity envB [(100, [1, 2, 3])] [(0, 100)] false
    [Event.unwind 100] (by rfl)).1 ?_
  · rw [h]; decide
  · intro tr htr
    rcases List.mem_singleton.mp htr with rfl
    exact ⟨100, by decide, by decide⟩

/-! ## Claim C9 -/

/-- C9 counterexample: the final source-map translate pass is applied to
EVERY merged frame, not only to native-application frames — here the merged
list is exactly one managed clone, and the output shows it was rewritten by
translate, contradicting "and no other frame". -/
theorem C9_counterexample_managed_clone_translated :
    traceC9.frames = [frameA] ∧
    envC9.sym.translate frameA = frameAT ∧
    processTrace envC9 [(0, 100)] [(100, [1])] traceC9 =
      Except.ok { thread_id := 7, os_thread_id := some 100, frames := [frameAT] } ∧
    frameAT ≠ frameA := by
  refine ⟨rfl, by decide, by decide, by decide⟩

/-- C9 (amended): after the parity check succeeds, EVERY frame of the merged
list — managed clones and stubs included, not only native-application
frames — is passed through the source-map translate operation, before the
merged list replaces the trace's frames and the OS thread id is recorded. -/
theorem C9_translate_pass_covers_all_merged (env : CaptureEnv)
    (tmap : List (Nat × Nat)) (nst : List (Nat × List Nat))
    (trace : StackTrace) (os : Nat)
    (hos : osThreadOf tmap trace = some os)
    (hpar : (mergeCore env.sym env.cfg trace.frames (stackFor nst os)).2 =
      trace.frames.length) :
    processTrace env tmap nst trace = Except.ok (mergedOutput env nst trace os) ∧
    (mergedOutput env nst trace os).frames =
      (mergeCore env.sym env.cfg trace.frames (stackFor nst os)).1.map
        env.sym.translate ∧
    (mergedOutput env nst trace os).os_thread_id = some os :=
  ⟨(processTrace_ok env tmap nst trace os hos hpar).1, rfl, rfl⟩

/-- C9 witness: the amended theorem applied to the concrete C9 scenario. -/
theorem C9_translate_witness :
    processTrace envC9 [(0, 100)] [(100, [1])] traceC9 =
      Except.ok (mergedOutput envC9 [(100, [1])] traceC9 100) ∧
    (mergedOutput envC9 [(100, [1])] traceC9 100).frames =
      (mergeCore envC9.sym envC9.cfg traceC9.frames
        (stackFor [(100, [1])] 100)).1.map envC9.sym.translate ∧
    (mergedOutput envC9 [(100, [1])] traceC9 100).os_thread_id = some 100 :=
  C9_translate_pass_covers_all_merged envC9 [(0, 100)] [(100, [1])] traceC9 100
    (by rfl) (by decide)

/-! ## Claim C6 -/

/-- C6: an interpreter trace whose thread id matched no correlation
candidate still merges successfully, bound to the fallback OS thread id —
the first OS thread whose correlation candidate was 0 (hypotheses split the
thread list around that first candidate-0 thread; parity is assumed for the
trace, and the fallback key must exist for the original's
`threadid_map[&0]` not to panic). -/
theorem C6_uncorrelated_trace_fallback (env : CaptureEnv)
    (nst : List (Nat × List Nat)) (tmap : List (Nat × Nat))
    (flag' : Bool) (evs : List Event)
    (pre : List Nat) (t0 : Nat) (post : List Nat) (trace : StackTrace)
    (hsnap : snapshotLoop env (env.pyTraces.map (fun tr => tr.thread_id))
      env.threads [] [] false [] = (flag', evs, Except.ok (nst, tmap)))
    (hth : env.threads = pre ++ t0 :: post)
    (hpre : ∀ t ∈ pre, ∀ s b,
      (getThreadResolved env (env.pyTraces.map (fun tr => tr.thread_id))
        t false).2 = Except.ok (s, b) → b ≠ 0)
    (ht0 : ∃ s, (getThreadResolved env (env.pyTraces.map (fun tr => tr.thread_id))
      t0 false).2 = Except.ok (s, 0))
    (hnb : tmap.lookup trace.thread_id = none)
    (hpar : (mergeCore env.sym env.cfg trace.frames (stackFor nst t0)).2 =
      trace.frames.length) :
    tmap.lookup 0 = some t0 ∧
    processTrace env tmap nst trace = Except.ok (mergedOutput env nst trace t0) ∧
    (mergedOutput env nst trace t0).os_thread_id = some t0 := by
  have h0 : tmap.lookup 0 = some t0 := by
    rw [hth] at hsnap
    exact snapshotLoop_first_zero_candidate env _ pre t0 post [] [] false []
      flag' evs nst tmap hsnap rfl hpre ht0
  have hos : osThreadOf tmap trace = some t0 := by
    simp [osThreadOf, hnb, h0]
  exact ⟨h0, (processTrace_ok env tmap nst trace t0 hos hpar).1, rfl⟩

/-- C6 witness: the fallback binding in a concrete capture whose only OS
thread has candidate 0 and whose trace id (9) matches nothing. -/
theorem C6_fallback_witness :
    ([(0, 100)] : List (Nat × Nat)).lookup 0 = some 100 ∧
    processTrace envC6 [(0, 100)] [(100, [])]
        { thread_id := 9, os_thread_id := none, frames := [] } =
      Except.ok (mergedOutput envC6 [(100, [])]
        { thread_id := 9, os_thread_id := none, frames := [] } 100) ∧
    (mergedOutput envC6 [(100, [])]
      { thread_id := 9, os_thread_id := none, frames := [] } 100).os_thread_id =
      some 100 := by
  refine C6_uncorrelated_trace_fallback envC6 [(100, [])] [(0, 100)] false
    [Event.unwind 100] [] 100 []
    { thread_id := 9, os_thread_id := none, frames := [] }
    (by rfl) rfl ?_ ⟨[], by rfl⟩ (by decide) (by decide)
  intro t ht
  exact absurd ht (List.not_mem_nil t)

/-! ## Claim C4 -/

/-- C4: a `NoBinaryForAddress` cursor error during the primary unwind sets
the reload flag and still propagates as the thread's error; a capture
entered with the flag set (and a working reload) is exactly the main phase
run with the flag cleared and a leading reload event, so the reload happens
before any thread unwind; every capture with the flag set starts with the
reload event; and a capture entered with the flag clear never reloads. -/
theorem C4_reload_flag_lifecycle :
    (∀ (tids : List Nat) (pre : List CursorStep) (bad : CursorStep)
       (rest : List CursorStep) (a : Nat),
       (∀ s ∈ pre, ∃ ip, s.ip = Except.ok ip) →
       bad.ip = Except.error (UnwindError.noBinaryForAddress a) →
       ∀ (flag : Bool) (st : List Nat) (bx : Nat),
       runCursor tids flag st bx (pre ++ bad :: rest) =
         (true, Except.error (UnwindError.noBinaryForAddress a))) ∧
    (∀ env : CaptureEnv, env.reloadOk = true →
      capture env true = captureMain env false [Event.reload]) ∧
    (∀ env : CaptureEnv, (capture env true).events.head? = some Event.reload) ∧
    (∀ env : CaptureEnv, Event.reload ∉ (capture env false).events) := by
  refine ⟨?_, ?_, ?_, ?_⟩
  · intro tids pre
    induction pre with
    | nil =>
      intro bad rest a hpre hbad flag st bx
      rcases bad with ⟨ip, sbx⟩
      simp only at hbad
      subst hbad
      simp [runCursor]
    | cons s pre2 ih =>
      intro bad rest a hpre hbad flag st bx
      rcases hpre s (List.mem_cons_self _ _) with ⟨ip, hip⟩
      rcases s with ⟨sip, sbx⟩
      simp only at hip
      subst hip
      simp only [List.cons_append, runCursor]
      exact ih bad rest a (fun x hx => hpre x (List.mem_cons_of_mem _ hx))
        hbad flag (st ++ [ip]) _
  · intro env h
    simp [capture, h]
  · intro env
    by_cases h : env.reloadOk = true
    · simp only [capture, h, if_true]
      rw [captureMain_events]
      rcases snapshotLoop_events_shape env _ env.threads [] [] false
        [Event.reload] with ⟨tail, htail, _⟩
      rw [htail]
      rfl
    · have h2 : env.reloadOk = false := by simpa using h
      simp [capture, h2]
  · intro env hmem
    have hev : (capture env false).events = (captureMain env false []).events := rfl
    rw [hev, captureMain_events] at hmem
    rcases snapshotLoop_events_shape env _ env.threads [] [] false []
      with ⟨tail, htail, hall⟩
    rw [htail] at hmem
    simp only [List.nil_append] at hmem
    rcases hall _ hmem with ⟨t, ht⟩
    cases ht

/-- C4 witness: the flag-setting error propagation at a concrete
`NoBinaryForAddress` step, and the reload-then-clear behaviour on the
concrete C4 environment. -/
theorem C4_reload_witness :
    runCursor [] false [] 0 [stepNoBinary] =
      (true, Except.error (UnwindError.noBinaryForAddress 77)) ∧
    capture envC4 true = captureMain envC4 false [Event.reload] ∧
    (capture envC4 true).events.head? = some Event.reload ∧
    Event.reload ∉ (capture envC4 false).events := by
  refine ⟨?_, ?_, ?_, ?_⟩
  · exact C4_reload_flag_lifecycle.1 [] [] stepNoBinary [] 77
      (fun s hs => absurd hs (List.not_mem_nil s)) rfl false [] 0
  · exact C4_reload_flag_lifecycle.2.1 envC4 rfl
  · exact C4_reload_flag_lifecycle.2.2.1 envC4
  · exact C4_reload_flag_lifecycle.2.2.2 envC4

/-! ## Claim C5 -/

/-- C5: when the primary unwind of a thread fails, the thread is fully
retried with the secondary backend when one is configured (the per-thread
result becomes exactly the secondary backend's result, same shape);
with no secondary backend the original error is the thread's result, and
the whole capture call fails with a thread-unwind error. -/
theorem C5_secondary_retry_or_fatal :
    (∀ (env : CaptureEnv) (tids : List Nat) (t : Nat) (flag : Bool)
       (e : UnwindError),
       (get_thread tids (env.primarySteps t) flag).2 = Except.error e →
       (∀ sec, env.secondary = some sec →
         (getThreadResolved env tids t flag).2 =
           get_libunwind_thread tids (sec t)) ∧
       (env.secondary = none →
         (getThreadResolved env tids t flag).2 = Except.error e)) ∧
    (∀ (env : CaptureEnv) (pre : List Nat) (t : Nat) (post : List Nat)
       (e : UnwindError),
       env.secondary = none →
       env.threads = pre ++ t :: post →
       (∀ t2 ∈ pre, ∃ x, (getThreadResolved env
         (env.pyTraces.map (fun tr => tr.thread_id)) t2 false).2 =
           Except.ok x) →
       (get_thread (env.pyTraces.map (fun tr => tr.thread_id))
         (env.primarySteps t) false).2 = Except.error e →
       (capture env false).result =
         Except.error (CapError.threadUnwind e)) := by
  constructor
  · intro env tids t flag e herr
    constructor
    · intro sec hsec
      simp only [getThreadResolved, herr, hsec]
    · intro hsec
      simp only [getThreadResolved, herr, hsec]
  · intro env pre t post e hsec hsplit hok herr
    have herr2 : (getThreadResolved env
        (env.pyTraces.map (fun tr => tr.thread_id)) t false).2 =
        Except.error e := by
      simp only [getThreadResolved, herr, hsec]
    rcases snapshotLoop_error_at_first env
      (env.pyTraces.map (fun tr => tr.thread_id)) e pre t post [] [] false []
      hok herr2 with ⟨f2, ev2, hrun⟩
    rw [← hsplit] at hrun
    simp [capture, captureMain, hrun]

/-- C5 witness: the secondary retry on the concrete environment with a
libunwind backend, and the fatal propagation on the one without. -/
theorem C5_fallback_witness :
    (getThreadResolved envC5s [] 200 false).2 =
      get_libunwind_thread [] (secondaryStepsC5 200) ∧
    (getThreadResolved envC5 [] 200 false).2 =
      Except.error (UnwindError.other 1) ∧
    (capture envC5 false).result =
      Except.error (CapError.threadUnwind (UnwindError.other 1)) := by
  refine ⟨?_, ?_, ?_⟩
  · exact (C5_secondary_retry_or_fatal.1 envC5s [] 200 false
      (UnwindError.other 1) (by decide)).1 secondaryStepsC5 rfl
  · exact (C5_secondary_retry_or_fatal.1 envC5 [] 200 false
      (UnwindError.other 1) (by decide)).2 rfl
  · exact C5_secondary_retry_or_fatal.2 envC5 [] 200 [] (UnwindError.other 1)
      rfl rfl (fun t2 ht2 => absurd ht2 (List.not_mem_nil t2)) (by decide)

end NativeStackTrace
